import Mathlib

/-!
Shallow embedding of `src/backend/server.py` (mytrips-viewer-ui backend).

Modelling conventions:
* Environment configuration (`os.environ.get` results read at module load or
  per request) is an explicit `Config` record.  A missing environment variable
  is `none`; Python's truthiness test `not s` on an optional string is
  `envFalsy` (true for `None` and for the empty string).
* Outbound HTTP calls (`httpx`) are an explicit `Upstream` argument: the call
  either times out (`httpx.TimeoutException`), raises some other exception
  (network error, JSON decode failure, ...), or yields a response with a
  status code and a parsed JSON body.  Bodies are records holding exactly the
  fields the handler reads, with `Option` marking absent keys.
* Wall-clock time (`datetime.now(timezone.utc)`) is an explicit `Int` of
  seconds since the epoch; `timedelta(minutes=m)` is `m * 60` seconds.
  ISO-8601 serialisation of a datetime is injective, so a serialised
  timestamp is modelled by the underlying instant.
* `random.uniform` draws are explicit rational arguments; theorems that need
  the ranges state them as hypotheses.  Latitude/longitude arithmetic is over
  `ℚ` (the decimal literals of the source are exact rationals).
* `jwt.encode`/`jwt.decode` (HS256, shared static secret): a token signed by
  this service is modelled by its claim set `AccessToken`; `jwt.decode`
  validates the `exp` claim, rejecting with `ExpiredSignatureError` exactly
  when the current time has reached `exp` (RFC 7519 / PyJWT semantics:
  a token is live iff `now < exp`).
* A `raise HTTPException(status, detail)` is `Except.error ⟨status, detail⟩`;
  a normal return is `Except.ok`.
-/

namespace MyTripsViewer

/-- Python truthiness of an optional environment string: `not s` is true for a
missing variable and for the empty string. -/
def envFalsy : Option String → Bool
  | none => true
  | some s => s = ""

/-- Module-level configuration of `server.py`: the mock-mode flag and mock
identity (lines 27-33), and the external-API environment variables read inside
the handlers (`LOC_API_TOKEN`, `MYTRIPS_API_BASEURL`, `LOC_API_BASEURL`). -/
structure Config where
  mockAuthEnabled : Bool
  mockUsername : String
  mockPassword : String
  mockUserEmail : String
  mockUserId : String
  locApiToken : Option String
  mytripsApiBaseurl : Option String
  locApiBaseurl : Option String
  deriving Repr, DecidableEq

/-- Result of an outbound `httpx` call: timeout, some other exception, or a
response carrying a status code and a parsed JSON body of shape `α`.
A 200 response whose body fails JSON parsing is `exn` (the `.json()` call
raises inside the same `try`). -/
inductive Upstream (α : Type) where
  | timeout : Upstream α
  | exn : Upstream α
  | response (statusCode : Nat) (body : α) : Upstream α
  deriving Repr, DecidableEq

/-- `User` pydantic model (`created_at` as an instant). -/
structure User where
  id : String
  username : String
  email : String
  created_at : Int
  deriving Repr, DecidableEq

/-- A document of the `users` collection: a `User` plus the bcrypt password
hash stored alongside. -/
structure StoredUser where
  id : String
  username : String
  email : String
  created_at : Int
  passwordHash : String
  deriving Repr, DecidableEq

/-- `UserCreate` request model. -/
structure UserCreate where
  username : String
  email : String
  password : String
  deriving Repr, DecidableEq

/-- `UserLogin` request model. -/
structure UserLogin where
  username : String
  password : String
  deriving Repr, DecidableEq

/-- `AppLoginRequest` request model. -/
structure AppLoginRequest where
  email : String
  password : String
  deriving Repr, DecidableEq

/-- `AppLoginResponse` response model. -/
structure AppLoginResponse where
  authenticated : Bool
  user_id : Option String := none
  message : Option String := none
  deriving Repr, DecidableEq

/-- Claim set of a JWT issued by this service: the `sub` claim (if set) and
the `exp` claim in epoch seconds. -/
structure AccessToken where
  sub : Option String
  exp : Int
  deriving Repr, DecidableEq

/-- `Token` response model. -/
structure Token where
  access_token : AccessToken
  token_type : String
  user : User
  deriving Repr, DecidableEq

/-- `TrackableUser` response model. -/
structure TrackableUser where
  id : String
  name : String
  status : String
  deriving Repr, DecidableEq

/-- `LocationData` response model.  `lat`/`lng` are `Option ℚ` only in the
sense that the upstream JSON may omit them; pydantic rejects `None` there, and
the embedding routes that rejection to the fallback path where it happens. -/
structure LocationData where
  user_id : String
  lat : ℚ
  lng : ℚ
  timestamp : Int
  speed : Option ℚ := none
  heading : Option ℚ := none
  deriving Repr, DecidableEq

/-- One entry of `RouteHistory.coordinates`: a plain dict `{"lat": .., "lng": ..}`,
which (being an untyped dict) may carry missing values. -/
structure CoordEntry where
  lat : Option ℚ
  lng : Option ℚ
  deriving Repr, DecidableEq

/-- `RouteHistory` response model; each timestamp is the instant whose
ISO-8601 rendering the handler appends. -/
structure RouteHistory where
  user_id : String
  coordinates : List CoordEntry
  timestamps : List Int
  deriving Repr, DecidableEq

/-- An `HTTPException(status_code, detail)`. -/
structure HTTPError where
  statusCode : Nat
  detail : String
  deriving Repr, DecidableEq

/-- `create_access_token` (lines 130-134): the claim set is the input data
plus an `exp` of now + `ACCESS_TOKEN_EXPIRE_MINUTES` (1440) minutes.  The
handlers always pass `{"sub": uid}`. -/
def create_access_token (now : Int) (sub : String) : AccessToken :=
  { sub := some sub, exp := now + 1440 * 60 }

/-- Parsed JSON body of the MyTrips `auth/app-login` response, restricted to
the keys `app_login` reads.  `none` marks an absent key; the `authenticated`
field is the Python truthiness of `data.get('authenticated', False)`. -/
structure LoginBody where
  authenticated : Bool := false
  user_id : Option String := none
  message : Option String := none
  deriving Repr, DecidableEq

/-- Python truthiness of the optional `user_id` string read from the body. -/
def optTruthy : Option String → Bool
  | none => false
  | some s => ¬ s = ""

/-- `app_login` handler (lines 225-350).  The configuration guards come first
(lines 237-249), then the mock branch (252-265), then the proxied call whose
entire body sits in one `try` with `except httpx.TimeoutException` and
`except Exception` arms — so the handler returns an `AppLoginResponse` on
every input and never propagates an exception, which the totality of this
function mirrors. -/
def app_login (cfg : Config) (credentials : AppLoginRequest)
    (upstream : Upstream LoginBody) : AppLoginResponse :=
  if envFalsy cfg.locApiToken then
    { authenticated := false, message := some "Authentication service unavailable" }
  else if envFalsy cfg.mytripsApiBaseurl then
    { authenticated := false, message := some "Authentication service unavailable" }
  else if cfg.mockAuthEnabled then
    if credentials.email = cfg.mockUserEmail ∧ credentials.password = cfg.mockPassword then
      { authenticated := true, user_id := some cfg.mockUserId,
        message := some "Authentication successful" }
    else
      { authenticated := false, message := some "Invalid credentials" }
  else
    match upstream with
    | .timeout =>
      { authenticated := false, message := some "Authentication service timeout" }
    | .exn =>
      { authenticated := false, message := some "Authentication failed" }
    | .response statusCode body =>
      if statusCode = 200 then
        let message := body.message.getD "Authentication successful"
        if body.authenticated && optTruthy body.user_id then
          { authenticated := true, user_id := some (body.user_id.getD ""),
            message := some message }
        else
          { authenticated := false,
            message := some (if message = "" then "Invalid email or password" else message) }
      else if statusCode = 401 ∨ statusCode = 403 then
        { authenticated := false, message := some "Invalid credentials" }
      else
        { authenticated := false, message := some "Authentication service error" }

/-- The `users` collection, in insertion order.  `db.users.find_one(q)`
returns the first matching document. -/
abbrev UserStore := List StoredUser

/-- `get_current_user` (lines 136-168), applied to the claim set of a
presented token that carries this service's valid signature.  `jwt.decode`
runs first and raises `ExpiredSignatureError` unless `now < exp`; then the
`sub` claim is required; then the mock branch compares it against the mock
user id, and the database branch looks the id up in the `users` collection.
Every failure is an `HTTPException` with status 401. -/
def get_current_user (cfg : Config) (store : UserStore) (now : Int)
    (token : AccessToken) : Except HTTPError User :=
  if now < token.exp then
    match token.sub with
    | none => .error { statusCode := 401, detail := "Invalid token" }
    | some user_id =>
      if cfg.mockAuthEnabled then
        if user_id = cfg.mockUserId then
          .ok { id := cfg.mockUserId, username := cfg.mockUsername,
                email := cfg.mockUserEmail, created_at := now }
        else
          .error { statusCode := 401, detail := "User not found" }
      else
        match store.find? (fun u => u.id = user_id) with
        | none => .error { statusCode := 401, detail := "User not found" }
        | some u =>
          .ok { id := u.id, username := u.username, email := u.email,
                created_at := u.created_at }
  else
    .error { statusCode := 401, detail := "Token expired" }

/-- `register` handler (lines 171-194).  `newId` is the freshly drawn
`uuid4`, `hash` the salted `bcrypt.hashpw` (salt drawn inside).  The result
pairs the HTTP outcome with the `users` collection after the call, so that
theorems can speak about whether a record was inserted.  The duplicate check
is the Mongo query `{"$or": [{"username": ...}, {"email": ...}]}`. -/
def register (cfg : Config) (store : UserStore) (now : Int) (newId : String)
    (hash : String → String) (user_data : UserCreate) :
    Except HTTPError Token × UserStore :=
  if cfg.mockAuthEnabled then
    (.error { statusCode := 501, detail := "Registration not available in mock mode" }, store)
  else if store.any (fun u => u.username = user_data.username ∨ u.email = user_data.email) then
    (.error { statusCode := 400, detail := "Username or email already exists" }, store)
  else
    let user : User :=
      { id := newId, username := user_data.username, email := user_data.email,
        created_at := now }
    let doc : StoredUser :=
      { id := newId, username := user_data.username, email := user_data.email,
        created_at := now, passwordHash := hash user_data.password }
    (.ok { access_token := create_access_token now user.id, token_type := "bearer",
           user := user },
     store ++ [doc])

/-- `login` handler (lines 196-223).  `verify` is `bcrypt.checkpw`
(password, stored hash). -/
def login (cfg : Config) (store : UserStore) (now : Int)
    (verify : String → String → Bool) (credentials : UserLogin) :
    Except HTTPError Token :=
  if cfg.mockAuthEnabled then
    if credentials.username = cfg.mockUsername ∧ credentials.password = cfg.mockPassword then
      let user_obj : User :=
        { id := cfg.mockUserId, username := cfg.mockUsername,
          email := cfg.mockUserEmail, created_at := now }
      .ok { access_token := create_access_token now user_obj.id, token_type := "bearer",
            user := user_obj }
    else
      .error { statusCode := 401, detail := "Invalid credentials" }
  else
    match store.find? (fun u => u.username = credentials.username) with
    | none => .error { statusCode := 401, detail := "Invalid credentials" }
    | some u =>
      if verify credentials.password u.passwordHash then
        let user_obj : User :=
          { id := u.id, username := u.username, email := u.email,
            created_at := u.created_at }
        .ok { access_token := create_access_token now user_obj.id, token_type := "bearer",
              user := user_obj }
      else
        .error { statusCode := 401, detail := "Invalid credentials" }

/-- Python's `a or b` on two optional strings (`user.get('display_name') or
user.get('username')`): the left value wins unless it is falsy (`None` or the
empty string). -/
def pyOr : Option String → Option String → Option String
  | some s, b => if s = "" then b else some s
  | none, b => b

/-- Python's `str(x)` on an optional string (`str(user.get('id'))`):
`str(None)` is the literal string `"None"`. -/
def pyStr : Option String → String
  | none => "None"
  | some s => s

/-- One record of the Location API `users.php` payload, restricted to the
keys the handler reads. -/
structure UpstreamUser where
  id : Option String := none
  display_name : Option String := none
  username : Option String := none
  deriving Repr, DecidableEq

/-- Parsed JSON body of a `users.php` response:
`{"status": ..., "data": {"users": [...]}}`.  `users = none` covers a missing
`data` object (the handler substitutes `{}`) as well as a missing `users`
key. -/
structure UsersBody where
  status : Option String := none
  users : Option (List UpstreamUser) := none
  deriving Repr, DecidableEq

/-- Python truthiness of `data.get('data', {}).get('users')`: a present,
non-empty list. -/
def usersTruthy : Option (List UpstreamUser) → Bool
  | none => false
  | some l => ¬ l = []

/-- The five-user mock set returned when mock mode is on or the Location API
is not configured (lines 419-425). -/
def fullMockUsers : List TrackableUser :=
  [ { id := "user-1", name := "Driver A - John Smith", status := "active" },
    { id := "user-2", name := "Driver B - Sarah Johnson", status := "active" },
    { id := "user-3", name := "Driver C - Mike Davis", status := "on_break" },
    { id := "user-4", name := "Driver D - Emily Chen", status := "active" },
    { id := "user-5", name := "Driver E - Robert Wilson", status := "inactive" } ]

/-- The two-user fallback set returned on any upstream error (lines 472-475
and 480-483 are identical). -/
def fallbackUsers : List TrackableUser :=
  [ { id := "user-1", name := "Driver A - John Smith", status := "active" },
    { id := "user-2", name := "Driver B - Sarah Johnson", status := "active" } ]

/-- The mapping loop of `get_trackable_users` (lines 454-461).  A record
whose `display_name or username` is `None` makes the `TrackableUser`
constructor raise a pydantic `ValidationError` (its `name` field is a
required `str`), which aborts the loop; `none` reports that. -/
def mapUsers : List UpstreamUser → Option (List TrackableUser)
  | [] => some []
  | u :: rest =>
    match pyOr u.display_name u.username with
    | none => none
    | some nm =>
      (mapUsers rest).map (fun l =>
        { id := pyStr u.id, name := nm, status := "active" } :: l)

/-- `get_trackable_users` handler (lines 407-483).  The whole proxied call
sits in a `try` with a single `except Exception` arm, and both the
after-`try` fallback and the `except` fallback return `fallbackUsers`, so
the handler returns a list on every input. -/
def get_trackable_users (cfg : Config) (upstream : Upstream UsersBody) :
    List TrackableUser :=
  if cfg.mockAuthEnabled || envFalsy cfg.locApiBaseurl || envFalsy cfg.locApiToken then
    fullMockUsers
  else
    match upstream with
    | .timeout => fallbackUsers
    | .exn => fallbackUsers
    | .response statusCode body =>
      if statusCode = 200 then
        if body.status = some "success" ∧ usersTruthy body.users then
          match mapUsers (body.users.getD []) with
          | some l => l
          | none => fallbackUsers
        else fallbackUsers
      else fallbackUsers

/-- One entry of the in-memory `location_state` table (line 487): the last
simulated latitude, longitude and heading of a subject. -/
structure LocEntry where
  lat : ℚ
  lng : ℚ
  heading : ℚ
  deriving Repr, DecidableEq

/-- The process-wide `location_state` dict, keyed by subject id. -/
def LocationState := String → Option LocEntry

/-- The empty `location_state` at process start. -/
def LocationState.empty : LocationState := fun _ => none

/-- `location_state[user_id] = e`. -/
def LocationState.set (st : LocationState) (user_id : String) (e : LocEntry) :
    LocationState :=
  fun k => if k = user_id then some e else st k

/-- The random draws the mock location path consumes on one call:
`random.uniform` deltas for latitude, longitude and heading, and the
simulated speed. -/
structure MockDraws where
  dLat : ℚ
  dLng : ℚ
  dHeading : ℚ
  speed : ℚ
  deriving Repr, DecidableEq

/-- Python's float `%` with a positive modulus: the remainder lies in
`[0, m)`. -/
def pymod (x m : ℚ) : ℚ := x - m * ⌊x / m⌋

/-- One record of a `locations.php` payload, restricted to the keys read by
the location and history handlers.  `parsedServerTime` is the outcome of
`datetime.strptime(location.get('server_time'), '%Y-%m-%d %H:%M:%S')`:
`some t` when the field parses to the instant `t` (then tagged UTC), `none`
when the field is absent or malformed and `strptime` raises. -/
structure UpstreamLoc where
  user_id : Option String := none
  latitude : Option ℚ := none
  longitude : Option ℚ := none
  parsedServerTime : Option Int := none
  speed : Option ℚ := none
  bearing : Option ℚ := none
  deriving Repr, DecidableEq

/-- Parsed JSON body of a `locations.php` response:
`{"success": ..., "data": [...]}`.  `success` is the Python truthiness of
`data.get('success')`. -/
structure LocationsBody where
  success : Bool := false
  data : Option (List UpstreamLoc) := none
  deriving Repr, DecidableEq

/-- Python truthiness of `data.get('data')`: a present, non-empty list. -/
def locsTruthy : Option (List UpstreamLoc) → Bool
  | none => false
  | some l => ¬ l = []

/-- The shared fallback of `get_user_location` (lines 574-590, repeated
verbatim in the `except` arm, lines 592-609): seed the simulation table with
the fixed reference point if the subject is absent, return its entry with
speed forced to zero. -/
def locationFallback (st : LocationState) (user_id : String) (now : Int) :
    LocationData × LocationState :=
  match st user_id with
  | none =>
    let e : LocEntry := { lat := 40.7589, lng := -73.9851, heading := 0 }
    ({ user_id := user_id, lat := e.lat, lng := e.lng, timestamp := now,
       speed := some 0, heading := some e.heading }, st.set user_id e)
  | some e =>
    ({ user_id := user_id, lat := e.lat, lng := e.lng, timestamp := now,
       speed := some 0, heading := some e.heading }, st)

/-- `get_user_location` handler (lines 489-609).  The mock branch (499-521)
seeds a new subject near the fixed reference point (deltas drawn from
`uniform(-0.01, 0.01)`) and perturbs a known subject by
`uniform(-0.0005, 0.0005)` on latitude and longitude and `uniform(-10, 10)`
mod 360 on heading.  The proxied branch parses the first record of the
response; a record whose latitude or longitude is absent fails pydantic
validation of `LocationData`, and the resulting exception lands in the
`except` arm, i.e. the fallback. -/
def get_user_location (cfg : Config) (st : LocationState) (user_id : String)
    (draws : MockDraws) (now : Int) (upstream : Upstream LocationsBody) :
    LocationData × LocationState :=
  if cfg.mockAuthEnabled || envFalsy cfg.locApiBaseurl || envFalsy cfg.locApiToken then
    match st user_id with
    | none =>
      let e : LocEntry :=
        { lat := 40.7589 + draws.dLat, lng := -73.9851 + draws.dLng,
          heading := draws.dHeading }
      ({ user_id := user_id, lat := e.lat, lng := e.lng, timestamp := now,
         speed := some draws.speed, heading := some e.heading }, st.set user_id e)
    | some e =>
      let e2 : LocEntry :=
        { lat := e.lat + draws.dLat, lng := e.lng + draws.dLng,
          heading := pymod (e.heading + draws.dHeading) 360 }
      ({ user_id := user_id, lat := e2.lat, lng := e2.lng, timestamp := now,
         speed := some draws.speed, heading := some e2.heading }, st.set user_id e2)
  else
    match upstream with
    | .timeout => locationFallback st user_id now
    | .exn => locationFallback st user_id now
    | .response statusCode body =>
      if statusCode = 200 ∧ body.success = true ∧ locsTruthy body.data then
        match body.data.getD [] with
        | [] => locationFallback st user_id now
        | location :: _ =>
          match location.latitude, location.longitude with
          | some la, some ln =>
            ({ user_id := pyStr location.user_id, lat := la, lng := ln,
               timestamp := location.parsedServerTime.getD now,
               speed := location.speed, heading := location.bearing }, st)
          | _, _ => locationFallback st user_id now
      else locationFallback st user_id now

/-- The synthetic 20-point history of the mock branch (lines 628-647):
point `i` sits at `base + i * step + jitter` and its timestamp is
`now - (20 - i)` minutes.  `jitter i` is the pair of `uniform(-0.0002,
0.0002)` draws of iteration `i`; the error fallbacks use the same path with
zero jitter. -/
def syntheticHistory (user_id : String) (now : Int) (jitter : Nat → ℚ × ℚ) :
    RouteHistory :=
  { user_id := user_id,
    coordinates := (List.range 20).map (fun i =>
      { lat := some (40.7589 + i * 0.001 + (jitter i).1),
        lng := some (-73.9851 + i * 0.0008 + (jitter i).2) }),
    timestamps := (List.range 20).map (fun i => now - (20 - Int.ofNat i) * 60) }

/-- The zero-jitter synthetic history of the two error fallbacks of
`get_route_history` (lines 713-731 and 734-753, identical). -/
def historyFallback (user_id : String) (now : Int) : RouteHistory :=
  syntheticHistory user_id now (fun _ => (0, 0))

/-- `get_route_history` handler (lines 611-753).  The `limit`, `date_from`
and `date_to` query parameters only shape the upstream request and never the
response processing, so they do not appear.  The proxied branch appends, for
every record, one coordinate dict (absent keys allowed — coordinates are
plain dicts) and one timestamp, substituting the current time when
`strptime` raises. -/
def get_route_history (cfg : Config) (user_id : String) (now : Int)
    (jitter : Nat → ℚ × ℚ) (upstream : Upstream LocationsBody) : RouteHistory :=
  if cfg.mockAuthEnabled || envFalsy cfg.locApiBaseurl || envFalsy cfg.locApiToken then
    syntheticHistory user_id now jitter
  else
    match upstream with
    | .timeout => historyFallback user_id now
    | .exn => historyFallback user_id now
    | .response statusCode body =>
      if statusCode = 200 ∧ body.success = true ∧ locsTruthy body.data then
        { user_id := user_id,
          coordinates := (body.data.getD []).map (fun location =>
            { lat := location.latitude, lng := location.longitude }),
          timestamps := (body.data.getD []).map (fun location =>
            location.parsedServerTime.getD now) }
      else historyFallback user_id now

/-- An HTTP response of the service: a status code and, on success, a body
of type `α`. -/
structure Response (α : Type) where
  statusCode : Nat
  body : Option α
  deriving Repr, DecidableEq

/-- FastAPI dispatch of `GET /api/users`.  The handler signature
`async def get_trackable_users():` (line 408) declares no parameter and in
particular no `Depends(get_current_user)` security dependency, so the router
invokes the handler whether or not the request carries an `Authorization`
header (`authHeader`), and a normal handler return is serialised with status
200. -/
def dispatch_get_users (cfg : Config) (authHeader : Option AccessToken)
    (upstream : Upstream UsersBody) : Response (List TrackableUser) :=
  { statusCode := 200, body := some (get_trackable_users cfg upstream) }

/-- FastAPI dispatch of `GET /api/location/{user_id}`.  The handler signature
`async def get_user_location(user_id: str):` (line 490) declares no security
dependency, so the router invokes it regardless of `authHeader`. -/
def dispatch_get_location (cfg : Config) (authHeader : Option AccessToken)
    (st : LocationState) (user_id : String) (draws : MockDraws) (now : Int)
    (upstream : Upstream LocationsBody) : Response LocationData × LocationState :=
  let r := get_user_location cfg st user_id draws now upstream
  ({ statusCode := 200, body := some r.1 }, r.2)

/-- FastAPI dispatch of `GET /api/history/{user_id}`.  The handler signature
(lines 612-617) declares only query parameters and no security dependency,
so the router invokes it regardless of `authHeader`. -/
def dispatch_get_history (cfg : Config) (authHeader : Option AccessToken)
    (user_id : String) (now : Int) (jitter : Nat → ℚ × ℚ)
    (upstream : Upstream LocationsBody) : Response RouteHistory :=
  { statusCode := 200, body := some (get_route_history cfg user_id now jitter upstream) }

/-- FastAPI dispatch of `GET /api/auth/me`, the one route that does declare
`Depends(get_current_user)` (line 353).  `HTTPBearer()` rejects a request
with no bearer credentials with 403 before the handler runs; otherwise
`get_current_user` validates the token and its `HTTPException`s become error
responses. -/
def dispatch_get_me (cfg : Config) (store : UserStore) (now : Int)
    (authHeader : Option AccessToken) : Response User :=
  match authHeader with
  | none => { statusCode := 403, body := none }
  | some token =>
    match get_current_user cfg store now token with
    | .ok u => { statusCode := 200, body := some u }
    | .error e => { statusCode := e.statusCode, body := none }

/-- A concrete mock-mode configuration: the source's default mock identity
(lines 30-33) with both external APIs configured. -/
def mockCfg : Config :=
  { mockAuthEnabled := true, mockUsername := "testuser",
    mockPassword := "password123", mockUserEmail := "testuser@example.com",
    mockUserId := "mock-user-123", locApiToken := some "loc-token",
    mytripsApiBaseurl := some "https://mytrips.example/api",
    locApiBaseurl := some "https://loc.example/api" }

/-- A concrete production configuration: mock mode off, both external APIs
configured. -/
def prodCfg : Config :=
  { mockCfg with mockAuthEnabled := false }

/-- A concrete mock-mode configuration with `LOC_API_TOKEN` unset. -/
def noTokenMockCfg : Config :=
  { mockCfg with locApiToken := none }

/-- C2: for every upstream failure of the external identity call — timeout,
network exception, or a response with non-200 status — `app_login` returns
normally (the embedding is a total function, mirroring the handler's
all-covering `try`/`except`) with `authenticated = false` and a non-empty
message. -/
theorem app_login_failure_returns_unauthenticated (cfg : Config)
    (creds : AppLoginRequest) (up : Upstream LoginBody)
    (ht : envFalsy cfg.locApiToken = false)
    (hb : envFalsy cfg.mytripsApiBaseurl = false)
    (hm : cfg.mockAuthEnabled = false)
    (hf : up = Upstream.timeout ∨ up = Upstream.exn ∨
          ∃ s b, up = Upstream.response s b ∧ ¬ s = 200) :
    (app_login cfg creds up).authenticated = false ∧
    ∃ m, (app_login cfg creds up).message = some m ∧ ¬ m = "" := by
  rcases hf with rfl | rfl | ⟨s, b, rfl, hs⟩
  · refine ⟨by simp [app_login, ht, hb, hm], "Authentication service timeout", ?_, by decide⟩
    simp [app_login, ht, hb, hm]
  · refine ⟨by simp [app_login, ht, hb, hm], "Authentication failed", ?_, by decide⟩
    simp [app_login, ht, hb, hm]
  · by_cases h43 : s = 401 ∨ s = 403
    · refine ⟨by simp [app_login, ht, hb, hm, hs, h43], "Invalid credentials", ?_, by decide⟩
      simp [app_login, ht, hb, hm, hs, h43]
    · refine ⟨by simp [app_login, ht, hb, hm, hs, h43], "Authentication service error", ?_,
        by decide⟩
      simp [app_login, ht, hb, hm, hs, h43]

/-- C2 witness: the theorem applied to the production configuration, an
arbitrary credential pair, and an upstream timeout. -/
theorem app_login_failure_returns_unauthenticated_witness :
    (app_login prodCfg ⟨"user@example.com", "pw"⟩ Upstream.timeout).authenticated = false ∧
    ∃ m, (app_login prodCfg ⟨"user@example.com", "pw"⟩ Upstream.timeout).message = some m ∧
      ¬ m = "" :=
  app_login_failure_returns_unauthenticated prodCfg ⟨"user@example.com", "pw"⟩
    Upstream.timeout (by decide) (by decide) rfl (Or.inl rfl)

/-- C5 counterexample: on an upstream 200 response, `app_login` reflects the
upstream body's `message` field verbatim to the caller, so upstream-supplied
text does reach the caller — the claim's "for every upstream response" is
false. -/
theorem app_login_reflects_upstream_message :
    (app_login prodCfg ⟨"user@example.com", "pw"⟩
        (Upstream.response 200
          { authenticated := true, user_id := some "u-1",
            message := some "upstream internal stack trace" })).message =
      some "upstream internal stack trace" := by
  decide

/-- C5 (amended): for every upstream failure (timeout, exception, or
non-200 status), the message `app_login` returns is one of the service's
four fixed generic strings, and for a non-200 status the whole response is
independent of the upstream body; on a 200 response, however, the upstream
`message` field is reflected to the caller. -/
theorem app_login_failure_messages_fixed (cfg : Config)
    (creds : AppLoginRequest) (up : Upstream LoginBody)
    (ht : envFalsy cfg.locApiToken = false)
    (hb : envFalsy cfg.mytripsApiBaseurl = false)
    (hm : cfg.mockAuthEnabled = false)
    (hf : up = Upstream.timeout ∨ up = Upstream.exn ∨
          ∃ s b, up = Upstream.response s b ∧ ¬ s = 200) :
    ((app_login cfg creds up).message = some "Authentication service timeout" ∨
     (app_login cfg creds up).message = some "Authentication failed" ∨
     (app_login cfg creds up).message = some "Invalid credentials" ∨
     (app_login cfg creds up).message = some "Authentication service error") ∧
    ∀ s b1 b2, ¬ s = 200 →
      app_login cfg creds (Upstream.response s b1) =
        app_login cfg creds (Upstream.response s b2) := by
  constructor
  · rcases hf with rfl | rfl | ⟨s, b, rfl, hs⟩
    · exact Or.inl (by simp [app_login, ht, hb, hm])
    · exact Or.inr (Or.inl (by simp [app_login, ht, hb, hm]))
    · by_cases h43 : s = 401 ∨ s = 403
      · exact Or.inr (Or.inr (Or.inl (by simp [app_login, ht, hb, hm, hs, h43])))
      · exact Or.inr (Or.inr (Or.inr (by simp [app_login, ht, hb, hm, hs, h43])))
  · intro s b1 b2 hs
    by_cases h43 : s = 401 ∨ s = 403 <;> simp [app_login, ht, hb, hm, hs, h43]

/-- C5 witness: the amended theorem applied to the production configuration
and an upstream 500 response. -/
theorem app_login_failure_messages_fixed_witness :
    ((app_login prodCfg ⟨"user@example.com", "pw"⟩
        (Upstream.response 500 { authenticated := false })).message =
          some "Authentication service timeout" ∨
     (app_login prodCfg ⟨"user@example.com", "pw"⟩
        (Upstream.response 500 { authenticated := false })).message =
          some "Authentication failed" ∨
     (app_login prodCfg ⟨"user@example.com", "pw"⟩
        (Upstream.response 500 { authenticated := false })).message =
          some "Invalid credentials" ∨
     (app_login prodCfg ⟨"user@example.com", "pw"⟩
        (Upstream.response 500 { authenticated := false })).message =
          some "Authentication service error") ∧
    ∀ s b1 b2, ¬ s = 200 →
      app_login prodCfg ⟨"user@example.com", "pw"⟩ (Upstream.response s b1) =
        app_login prodCfg ⟨"user@example.com", "pw"⟩ (Upstream.response s b2) :=
  app_login_failure_messages_fixed prodCfg ⟨"user@example.com", "pw"⟩
    (Upstream.response 500 { authenticated := false }) (by decide) (by decide) rfl
    (Or.inr (Or.inr ⟨500, { authenticated := false }, rfl, by decide⟩))

/-- C10: whenever `LOC_API_TOKEN` or `MYTRIPS_API_BASEURL` is absent (unset
or empty), `app_login` answers `authenticated = false` with the fixed
message "Authentication service unavailable" for every credential pair and
every mock-mode setting — the configuration guards (lines 237-249) precede
the mock branch (line 252). -/
theorem app_login_unconfigured_unavailable (cfg : Config)
    (creds : AppLoginRequest) (up : Upstream LoginBody)
    (h : envFalsy cfg.locApiToken = true ∨ envFalsy cfg.mytripsApiBaseurl = true) :
    app_login cfg creds up =
      { authenticated := false, user_id := none,
        message := some "Authentication service unavailable" } := by
  rcases h with h | h
  · simp [app_login, h]
  · unfold app_login
    split_ifs <;> simp_all

/-- C10 witness: the theorem applied to a mock-mode configuration whose
`LOC_API_TOKEN` is unset and to the matching mock credentials — even this
pair is told "Authentication service unavailable". -/
theorem app_login_unconfigured_unavailable_witness :
    app_login noTokenMockCfg ⟨"testuser@example.com", "password123"⟩
        (Upstream.response 200 { authenticated := true }) =
      { authenticated := false, user_id := none,
        message := some "Authentication service unavailable" } :=
  app_login_unconfigured_unavailable noTokenMockCfg
    ⟨"testuser@example.com", "password123"⟩
    (Upstream.response 200 { authenticated := true }) (Or.inl rfl)

/-- C3: a registration attempt whose username or email matches an existing
stored user fails with the service's conflict error (HTTP 400, "Username or
email already exists") and leaves the `users` collection unchanged — the
`insert_one` on line 191 is never reached.  Mock mode is off: that is the
only mode in which a credential store exists (lines 36-44). -/
theorem register_duplicate_conflict (cfg : Config) (store : UserStore)
    (now : Int) (newId : String) (hash : String → String)
    (user_data : UserCreate) (hm : cfg.mockAuthEnabled = false)
    (hd : store.any
      (fun u => u.username = user_data.username ∨ u.email = user_data.email) = true) :
    register cfg store now newId hash user_data =
      (.error { statusCode := 400, detail := "Username or email already exists" },
       store) := by
  unfold register
  rw [hm, hd]
  simp

/-- C3 witness: registering a duplicate username against a one-user store. -/
theorem register_duplicate_conflict_witness :
    register prodCfg
        [{ id := "u-1", username := "alice", email := "alice@example.com",
           created_at := 0, passwordHash := "h" }] 10 "u-2" (fun p => p)
        { username := "alice", email := "other@example.com", password := "pw" } =
      (.error { statusCode := 400, detail := "Username or email already exists" },
       [{ id := "u-1", username := "alice", email := "alice@example.com",
          created_at := 0, passwordHash := "h" }]) :=
  register_duplicate_conflict prodCfg
    [{ id := "u-1", username := "alice", email := "alice@example.com",
       created_at := 0, passwordHash := "h" }] 10 "u-2" (fun p => p)
    { username := "alice", email := "other@example.com", password := "pw" }
    rfl (by decide)

/-- C4: a token issued by `create_access_token` at time `T` for a subject
that resolves (the mock identity in mock mode, a stored user otherwise) is
accepted by `get_current_user` at every instant strictly before `T + 24h`
and rejected with the 401 "Token expired" error at every instant after
`T + 24h`. -/
theorem token_accepted_before_rejected_after (cfg : Config) (store : UserStore)
    (uid : String) (T now : Int)
    (hsub : (cfg.mockAuthEnabled = true ∧ uid = cfg.mockUserId) ∨
            (cfg.mockAuthEnabled = false ∧
              (store.find? (fun u => u.id = uid)).isSome = true)) :
    (now < T + 24 * 60 * 60 →
      ∃ u, get_current_user cfg store now (create_access_token T uid) =
        .ok u) ∧
    (T + 24 * 60 * 60 < now →
      get_current_user cfg store now (create_access_token T uid) =
        .error { statusCode := 401, detail := "Token expired" }) := by
  constructor
  · intro hlt
    have hlt2 : now < T + 86400 := by omega
    rcases hsub with ⟨hm, rfl⟩ | ⟨hm, hfind⟩
    · exact ⟨{ id := cfg.mockUserId, username := cfg.mockUsername,
               email := cfg.mockUserEmail, created_at := now },
        by simp [get_current_user, create_access_token, hlt2, hm]⟩
    · rcases Option.isSome_iff_exists.mp hfind with ⟨u, hu⟩
      exact ⟨{ id := u.id, username := u.username, email := u.email,
               created_at := u.created_at },
        by simp [get_current_user, create_access_token, hlt2, hm, hu]⟩
  · intro hgt
    have hnlt : ¬ now < (create_access_token T uid).exp := by
      simp only [create_access_token]
      omega
    simp [get_current_user, hnlt]

/-- C4 witness: in the mock configuration, the token minted at `T = 0` for
the mock user id is accepted at `now = 100` and rejected at
`now = 86500 > 86400`. -/
theorem token_accepted_before_rejected_after_witness :
    (∃ u, get_current_user mockCfg [] 100 (create_access_token 0 "mock-user-123") =
      .ok u) ∧
    get_current_user mockCfg [] 86500 (create_access_token 0 "mock-user-123") =
      .error { statusCode := 401, detail := "Token expired" } :=
  ⟨(token_accepted_before_rejected_after mockCfg [] "mock-user-123" 0 100
      (Or.inl ⟨rfl, rfl⟩)).1 (by norm_num),
   (token_accepted_before_rejected_after mockCfg [] "mock-user-123" 0 86500
      (Or.inl ⟨rfl, rfl⟩)).2 (by norm_num)⟩

/-- C9: with mock mode enabled, `login` succeeds exactly when the submitted
pair equals the configured mock pair — issuing a token whose `sub` claim is
the configured mock user id — and answers the 401 "Invalid credentials"
error for every other pair. -/
theorem mock_login_exact (cfg : Config) (store : UserStore) (now : Int)
    (verify : String → String → Bool) (creds : UserLogin)
    (hm : cfg.mockAuthEnabled = true) :
    ((creds.username = cfg.mockUsername ∧ creds.password = cfg.mockPassword) →
      ∃ t, login cfg store now verify creds = .ok t ∧
        t.access_token.sub = some cfg.mockUserId) ∧
    (¬ (creds.username = cfg.mockUsername ∧ creds.password = cfg.mockPassword) →
      login cfg store now verify creds =
        .error { statusCode := 401, detail := "Invalid credentials" }) := by
  constructor
  · intro hok
    refine ⟨{ access_token := create_access_token now cfg.mockUserId,
              token_type := "bearer",
              user := { id := cfg.mockUserId, username := cfg.mockUsername,
                        email := cfg.mockUserEmail, created_at := now } },
      ?_, rfl⟩
    simp [login, hm, hok]
  · intro hbad
    simp [login, hm, hbad]

/-- C9 witness: the default mock pair `("testuser", "password123")` succeeds
against `mockCfg` with subject `"mock-user-123"`, and a wrong password is
rejected with 401. -/
theorem mock_login_exact_witness :
    (∃ t, login mockCfg [] 0 (fun _ _ => false)
        { username := "testuser", password := "password123" } = .ok t ∧
      t.access_token.sub = some mockCfg.mockUserId) ∧
    login mockCfg [] 0 (fun _ _ => false)
        { username := "testuser", password := "wrong" } =
      .error { statusCode := 401, detail := "Invalid credentials" } :=
  ⟨(mock_login_exact mockCfg [] 0 (fun _ _ => false)
      { username := "testuser", password := "password123" } rfl).1 ⟨rfl, rfl⟩,
   (mock_login_exact mockCfg [] 0 (fun _ _ => false)
      { username := "testuser", password := "wrong" } rfl).2 (by decide)⟩

/-- C1 counterexample: a concrete `GET /api/users` request carrying no
bearer token is answered with status 200 (the mock user list), not 401, and
the same holds for concrete tokenless `GET /api/location/{userId}` and
`GET /api/history/{userId}` requests — the claim that these three endpoints
reject tokenless requests with 401 is false. -/
theorem read_endpoints_answer_tokenless_requests :
    (dispatch_get_users mockCfg none (Upstream.response 200 {})).statusCode = 200 ∧
    ¬ (dispatch_get_users mockCfg none (Upstream.response 200 {})).statusCode = 401 ∧
    ((dispatch_get_location mockCfg none LocationState.empty "user-42"
        { dLat := 0, dLng := 0, dHeading := 0, speed := 30 } 0
        Upstream.timeout).1).statusCode = 200 ∧
    (dispatch_get_history mockCfg none "user-42" 0 (fun _ => (0, 0))
        Upstream.timeout).statusCode = 200 := by
  exact ⟨rfl, by decide, rfl, rfl⟩

/-- C1 (amended): `GET users`, `GET location/{userId}` and
`GET history/{userId}` enforce no bearer-token check at all — each handler
declares no security dependency, so its response is independent of the
Authorization header and has status 200 (never 401) even when no token is
presented; of the routes modelled here only `GET auth/me` demands
credentials (rejecting a tokenless request with 403). -/
theorem read_endpoints_ignore_auth_header (cfg : Config)
    (h1 h2 : Option AccessToken) (upU : Upstream UsersBody)
    (st : LocationState) (uid : String) (draws : MockDraws) (now : Int)
    (upL : Upstream LocationsBody) (jitter : Nat → ℚ × ℚ)
    (store : UserStore) :
    dispatch_get_users cfg h1 upU = dispatch_get_users cfg h2 upU ∧
    (dispatch_get_users cfg none upU).statusCode = 200 ∧
    dispatch_get_location cfg h1 st uid draws now upL =
      dispatch_get_location cfg h2 st uid draws now upL ∧
    ((dispatch_get_location cfg none st uid draws now upL).1).statusCode = 200 ∧
    dispatch_get_history cfg h1 uid now jitter upL =
      dispatch_get_history cfg h2 uid now jitter upL ∧
    (dispatch_get_history cfg none uid now jitter upL).statusCode = 200 ∧
    (dispatch_get_me cfg store now none).statusCode = 403 :=
  ⟨rfl, rfl, rfl, rfl, rfl, rfl, rfl⟩

/-- C6: on every path of `get_route_history` — mock, proxied success
(including records whose `server_time` fails to parse), and both error
fallbacks — the returned coordinate and timestamp sequences have the same
length. -/
theorem history_lengths_equal (cfg : Config) (uid : String) (now : Int)
    (jitter : Nat → ℚ × ℚ) (up : Upstream LocationsBody) :
    (get_route_history cfg uid now jitter up).coordinates.length =
      (get_route_history cfg uid now jitter up).timestamps.length := by
  unfold get_route_history historyFallback syntheticHistory
  split
  · simp only [List.length_map]
  · split
    · simp only [List.length_map]
    · simp only [List.length_map]
    · split
      · simp only [List.length_map]
      · simp only [List.length_map]

/-- C7: with mock mode off and the Location API configured, every upstream
failure of the trackable-users call — timeout, exception, non-200 status, or
a 200 response carrying no users — still yields an HTTP 200 response whose
body is the non-empty two-user fallback list. -/
theorem users_failure_returns_fallback (cfg : Config)
    (authHeader : Option AccessToken) (up : Upstream UsersBody)
    (hm : cfg.mockAuthEnabled = false)
    (hb : envFalsy cfg.locApiBaseurl = false)
    (ht : envFalsy cfg.locApiToken = false)
    (hf : up = Upstream.timeout ∨ up = Upstream.exn ∨
          (∃ s b, up = Upstream.response s b ∧ ¬ s = 200) ∨
          (∃ b, up = Upstream.response 200 b ∧ usersTruthy b.users = false)) :
    (dispatch_get_users cfg authHeader up).statusCode = 200 ∧
    (dispatch_get_users cfg authHeader up).body = some fallbackUsers ∧
    ¬ fallbackUsers = [] := by
  refine ⟨rfl, ?_, by decide⟩
  rcases hf with rfl | rfl | ⟨s, b, rfl, hs⟩ | ⟨b, rfl, hu⟩
  · simp [dispatch_get_users, get_trackable_users, hm, hb, ht]
  · simp [dispatch_get_users, get_trackable_users, hm, hb, ht]
  · simp [dispatch_get_users, get_trackable_users, hm, hb, ht, hs]
  · simp [dispatch_get_users, get_trackable_users, hm, hb, ht, hu]

/-- C7 witness: an upstream 500 response, with no token presented, is
answered 200 with the two-user fallback. -/
theorem users_failure_returns_fallback_witness :
    (dispatch_get_users prodCfg none (Upstream.response 500 {})).statusCode = 200 ∧
    (dispatch_get_users prodCfg none (Upstream.response 500 {})).body =
      some fallbackUsers ∧
    ¬ fallbackUsers = [] :=
  users_failure_returns_fallback prodCfg none (Upstream.response 500 {})
    rfl (by decide) (by decide)
    (Or.inr (Or.inr (Or.inl ⟨500, {}, rfl, by decide⟩)))

/-- C8 counterexample: `random.uniform(-0.0005, 0.0005)` may draw exactly
zero, and then the second mock response's latitude equals the first one —
here concretely for `user-42`, seeding on the first call and drawing a zero
latitude delta on the second, so "never bit-identical" is false. -/
theorem mock_location_can_repeat_latitude :
    (((get_user_location mockCfg
        (get_user_location mockCfg LocationState.empty "user-42"
          { dLat := 0.005, dLng := -0.003, dHeading := 90, speed := 30 } 0
          Upstream.timeout).2
        "user-42" { dLat := 0, dLng := 0.0002, dHeading := 5, speed := 40 } 60
        Upstream.timeout).1).lat =
      ((get_user_location mockCfg LocationState.empty "user-42"
          { dLat := 0.005, dLng := -0.003, dHeading := 90, speed := 30 } 0
          Upstream.timeout).1).lat) := by
  norm_num [get_user_location, mockCfg, LocationState.empty, LocationState.set]

/-- C8 (amended): in mock mode, whatever the first call's draws, two
successive `get_user_location` calls for the same id return latitudes whose
difference is bounded by the second call's latitude delta range,
`|Δlat| ≤ 0.0005`; the two latitudes coincide exactly when that delta is
drawn as zero (so bit-identical repeats are possible but the drift bound
always holds). -/
theorem mock_location_drift_bounded (cfg : Config) (st : LocationState)
    (uid : String) (d1 d2 : MockDraws) (n1 n2 : Int)
    (u1 u2 : Upstream LocationsBody) (hm : cfg.mockAuthEnabled = true)
    (hd : |d2.dLat| ≤ 0.0005) :
    |(((get_user_location cfg (get_user_location cfg st uid d1 n1 u1).2 uid
          d2 n2 u2).1).lat -
        ((get_user_location cfg st uid d1 n1 u1).1).lat)| ≤ 0.0005 ∧
    ((((get_user_location cfg (get_user_location cfg st uid d1 n1 u1).2 uid
          d2 n2 u2).1).lat =
        ((get_user_location cfg st uid d1 n1 u1).1).lat) ↔ d2.dLat = 0) := by
  have hmock : (cfg.mockAuthEnabled || envFalsy cfg.locApiBaseurl ||
      envFalsy cfg.locApiToken) = true := by
    simp [hm]
  match hst : st uid with
  | none =>
    simp only [get_user_location, hmock, if_true, hst, LocationState.set,
      if_pos rfl]
    constructor
    · have : (40.7589 : ℚ) + d1.dLat + d2.dLat - (40.7589 + d1.dLat) = d2.dLat := by
        ring
      rw [this]
      exact hd
    · constructor
      · intro h
        have := sub_eq_zero_of_eq h
        linarith [this]
      · intro h
        rw [h]
        ring
  | some e =>
    simp only [get_user_location, hmock, if_true, hst, LocationState.set,
      if_pos rfl]
    constructor
    · have : e.lat + d1.dLat + d2.dLat - (e.lat + d1.dLat) = d2.dLat := by
        ring
      rw [this]
      exact hd
    · constructor
      · intro h
        have := sub_eq_zero_of_eq h
        linarith [this]
      · intro h
        rw [h]
        ring

/-- C8 witness: the amended theorem at the mock configuration, empty state,
and a concrete in-range second draw of `0.0003`. -/
theorem mock_location_drift_bounded_witness :
    |(((get_user_location mockCfg
          (get_user_location mockCfg LocationState.empty "user-42"
            { dLat := 0.005, dLng := -0.003, dHeading := 90, speed := 30 } 0
            Upstream.timeout).2 "user-42"
          { dLat := 0.0003, dLng := 0, dHeading := 5, speed := 40 } 60
          Upstream.timeout).1).lat -
        ((get_user_location mockCfg LocationState.empty "user-42"
            { dLat := 0.005, dLng := -0.003, dHeading := 90, speed := 30 } 0
            Upstream.timeout).1).lat)| ≤ 0.0005 ∧
    ((((get_user_location mockCfg
          (get_user_location mockCfg LocationState.empty "user-42"
            { dLat := 0.005, dLng := -0.003, dHeading := 90, speed := 30 } 0
            Upstream.timeout).2 "user-42"
          { dLat := 0.0003, dLng := 0, dHeading := 5, speed := 40 } 60
          Upstream.timeout).1).lat =
        ((get_user_location mockCfg LocationState.empty "user-42"
            { dLat := 0.005, dLng := -0.003, dHeading := 90, speed := 30 } 0
            Upstream.timeout).1).lat) ↔
      ({ dLat := 0.0003, dLng := 0, dHeading := 5, speed := 40 } :
        MockDraws).dLat = 0) :=
  mock_location_drift_bounded mockCfg LocationState.empty "user-42"
    { dLat := 0.005, dLng := -0.003, dHeading := 90, speed := 30 }
    { dLat := 0.0003, dLng := 0, dHeading := 5, speed := 40 } 0 60
    Upstream.timeout Upstream.timeout rfl
    (by rw [abs_le]; constructor <;> norm_num)

end MyTripsViewer
